import Mathlib

/-!
Verification of the node-freefare asynchronous command / protocol-dispatch core.

The definitions below are a shallow embedding of the repository's code:
* `src/common.h`          — error-code constants and the `LIBNFC_ERROR_TO_NFF` macro;
* `tag.cpp`               — `Tag::Init` method registration and `Tag::GetTagType`;
* `device.cpp`            — `Device::Init` method registration and the workers;
* `tag_ntag21x.cpp`       — the NTAG21x worker `Execute` bodies;
* `index.js`              — the caller-facing JavaScript classes (`Freefare`,
  `Device`, `Tag`, `MifareUltralightTag`, `MifareClassicTag`,
  `MifareDesfireTag`, `NTag21xTag`).
-/

namespace NodeFreefare

/- ------------------------------------------------------------------ -/
/- Error codes, from src/common.h                                      -/
/- ------------------------------------------------------------------ -/

def NFF_ERROR_OPEN_DEVICE : Int := 11

def NFF_ERROR_INIT_LIBNFC : Int := 10

def NFF_ERROR_LIBNFC_UNKNOWN : Int := 100

def NFF_ERROR_LIBNFC_EIO_ : Int := 101

def NFF_ERROR_LIBNFC_EINVARG : Int := 102

def NFF_ERROR_LIBNFC_EDEVNOTSUPP : Int := 103

def NFF_ERROR_LIBNFC_ENOTSUCHDEV : Int := 104

def NFF_ERROR_LIBNFC_EOVFLOW : Int := 105

def NFF_ERROR_LIBNFC_ETIMEOUT : Int := 106

def NFF_ERROR_LIBNFC_EOPABORTED : Int := 107

def NFF_ERROR_LIBNFC_ENOTIMPL : Int := 108

def NFF_ERROR_LIBNFC_ETGRELEASED : Int := 109

def NFF_ERROR_LIBNFC_ERFTRANS : Int := 110

def NFF_ERROR_LIBNFC_EMFCAUTHFAIL : Int := 111

def NFF_ERROR_LIBNFC_ESOFT : Int := 112

def NFF_ERROR_LIBNFC_ECHIP : Int := 113

/-- Native libnfc error code, value taken from the external header nfc/nfc.h. -/
def NFC_EIO_ : Int := -1

/-- Native libnfc error code (external header nfc/nfc.h). -/
def NFC_EINVARG : Int := -2

/-- Native libnfc error code (external header nfc/nfc.h). -/
def NFC_EDEVNOTSUPP : Int := -3

/-- Native libnfc error code (external header nfc/nfc.h). -/
def NFC_ENOTSUCHDEV : Int := -4

/-- Native libnfc error code (external header nfc/nfc.h). -/
def NFC_EOVFLOW : Int := -5

/-- Native libnfc error code (external header nfc/nfc.h). -/
def NFC_ETIMEOUT : Int := -6

/-- Native libnfc error code (external header nfc/nfc.h). -/
def NFC_EOPABORTED : Int := -7

/-- Native libnfc error code (external header nfc/nfc.h). -/
def NFC_ENOTIMPL : Int := -8

/-- Native libnfc error code (external header nfc/nfc.h). -/
def NFC_ETGRELEASED : Int := -10

/-- Native libnfc error code (external header nfc/nfc.h). -/
def NFC_ERFTRANS : Int := -20

/-- Native libnfc error code (external header nfc/nfc.h). -/
def NFC_EMFCAUTHFAIL : Int := -30

/-- Native libnfc error code (external header nfc/nfc.h). -/
def NFC_ESOFT : Int := -80

/-- Native libnfc error code (external header nfc/nfc.h). -/
def NFC_ECHIP : Int := -90

/-- Embedding of the `LIBNFC_ERROR_TO_NFF` macro chain of src/common.h. -/
def LIBNFC_ERROR_TO_NFF (error : Int) : Int :=
  if error = NFC_EIO_ then NFF_ERROR_LIBNFC_EIO_
  else if error = NFC_EINVARG then NFF_ERROR_LIBNFC_EINVARG
  else if error = NFC_EDEVNOTSUPP then NFF_ERROR_LIBNFC_EDEVNOTSUPP
  else if error = NFC_ENOTSUCHDEV then NFF_ERROR_LIBNFC_ENOTSUCHDEV
  else if error = NFC_EOVFLOW then NFF_ERROR_LIBNFC_EOVFLOW
  else if error = NFC_ETIMEOUT then NFF_ERROR_LIBNFC_ETIMEOUT
  else if error = NFC_EOPABORTED then NFF_ERROR_LIBNFC_EOPABORTED
  else if error = NFC_ENOTIMPL then NFF_ERROR_LIBNFC_ENOTIMPL
  else if error = NFC_ETGRELEASED then NFF_ERROR_LIBNFC_ETGRELEASED
  else if error = NFC_ERFTRANS then NFF_ERROR_LIBNFC_ERFTRANS
  else if error = NFC_EMFCAUTHFAIL then NFF_ERROR_LIBNFC_EMFCAUTHFAIL
  else if error = NFC_ESOFT then NFF_ERROR_LIBNFC_ESOFT
  else if error = NFC_ECHIP then NFF_ERROR_LIBNFC_ECHIP
  else NFF_ERROR_LIBNFC_UNKNOWN

/-- The stable error taxonomy of spec section 4.5. -/
inductive ErrorTaxonomy
  | IOError
  | InvalidArgument
  | DeviceNotSupported
  | NoSuchDevice
  | Overflow
  | Timeout
  | OperationAborted
  | NotImplemented
  | TagReleased
  | RFTransmissionError
  | AuthenticationFailed
  | SoftError
  | ChipError
  | Unknown
  deriving DecidableEq, Repr

/-- Reads an NFF binding error code back as its taxonomy member (the naming
correspondence of spec section 4.5 for the codes of src/common.h). -/
def nffToTaxonomy (code : Int) : ErrorTaxonomy :=
  if code = NFF_ERROR_LIBNFC_EIO_ then .IOError
  else if code = NFF_ERROR_LIBNFC_EINVARG then .InvalidArgument
  else if code = NFF_ERROR_LIBNFC_EDEVNOTSUPP then .DeviceNotSupported
  else if code = NFF_ERROR_LIBNFC_ENOTSUCHDEV then .NoSuchDevice
  else if code = NFF_ERROR_LIBNFC_EOVFLOW then .Overflow
  else if code = NFF_ERROR_LIBNFC_ETIMEOUT then .Timeout
  else if code = NFF_ERROR_LIBNFC_EOPABORTED then .OperationAborted
  else if code = NFF_ERROR_LIBNFC_ENOTIMPL then .NotImplemented
  else if code = NFF_ERROR_LIBNFC_ETGRELEASED then .TagReleased
  else if code = NFF_ERROR_LIBNFC_ERFTRANS then .RFTransmissionError
  else if code = NFF_ERROR_LIBNFC_EMFCAUTHFAIL then .AuthenticationFailed
  else if code = NFF_ERROR_LIBNFC_ESOFT then .SoftError
  else if code = NFF_ERROR_LIBNFC_ECHIP then .ChipError
  else .Unknown

/-- The native codes that the macro chain recognizes. -/
def mappedNativeCodes : List Int :=
  [NFC_EIO_, NFC_EINVARG, NFC_EDEVNOTSUPP, NFC_ENOTSUCHDEV, NFC_EOVFLOW,
   NFC_ETIMEOUT, NFC_EOPABORTED, NFC_ENOTIMPL, NFC_ETGRELEASED,
   NFC_ERFTRANS, NFC_EMFCAUTHFAIL, NFC_ESOFT, NFC_ECHIP]

/-- The closed set of NFF binding codes that translation can produce. -/
def nffLibnfcCodes : List Int :=
  [NFF_ERROR_LIBNFC_EIO_, NFF_ERROR_LIBNFC_EINVARG, NFF_ERROR_LIBNFC_EDEVNOTSUPP,
   NFF_ERROR_LIBNFC_ENOTSUCHDEV, NFF_ERROR_LIBNFC_EOVFLOW, NFF_ERROR_LIBNFC_ETIMEOUT,
   NFF_ERROR_LIBNFC_EOPABORTED, NFF_ERROR_LIBNFC_ENOTIMPL, NFF_ERROR_LIBNFC_ETGRELEASED,
   NFF_ERROR_LIBNFC_ERFTRANS, NFF_ERROR_LIBNFC_EMFCAUTHFAIL, NFF_ERROR_LIBNFC_ESOFT,
   NFF_ERROR_LIBNFC_ECHIP, NFF_ERROR_LIBNFC_UNKNOWN]

end NodeFreefare

namespace NodeFreefare

/-- Claim C2: the native-to-taxonomy error translation is total: every native
code yields exactly one member of the closed NFF code set, any native code
outside the mapped set yields the Unknown code, and the taxonomy reading is
Unknown exactly on unmapped native codes. -/
theorem translate_total (e : Int) :
    LIBNFC_ERROR_TO_NFF e ∈ nffLibnfcCodes ∧
    (e ∉ mappedNativeCodes → LIBNFC_ERROR_TO_NFF e = NFF_ERROR_LIBNFC_UNKNOWN) ∧
    (nffToTaxonomy (LIBNFC_ERROR_TO_NFF e) = ErrorTaxonomy.Unknown ↔ e ∉ mappedNativeCodes) := by
  by_cases he : e ∈ mappedNativeCodes
  · have hm := he
    simp only [mappedNativeCodes, List.mem_cons, List.not_mem_nil, or_false] at hm
    rcases hm with rfl | rfl | rfl | rfl | rfl | rfl | rfl | rfl | rfl | rfl | rfl | rfl | rfl
    all_goals decide
  · have hne := he
    simp only [mappedNativeCodes, List.mem_cons, List.not_mem_nil, or_false] at hne
    push_neg at hne
    obtain ⟨n1, n2, n3, n4, n5, n6, n7, n8, n9, n10, n11, n12, n13⟩ := hne
    have hfe : LIBNFC_ERROR_TO_NFF e = NFF_ERROR_LIBNFC_UNKNOWN := by
      unfold LIBNFC_ERROR_TO_NFF
      rw [if_neg n1, if_neg n2, if_neg n3, if_neg n4, if_neg n5, if_neg n6, if_neg n7,
        if_neg n8, if_neg n9, if_neg n10, if_neg n11, if_neg n12, if_neg n13]
    rw [hfe]
    exact ⟨by decide, fun _ => rfl, ⟨fun _ => he, fun _ => by decide⟩⟩

/-- Witness for C2 at the concrete unmapped native code 42. -/
theorem translate_total_witness :
    LIBNFC_ERROR_TO_NFF 42 = NFF_ERROR_LIBNFC_UNKNOWN :=
  (translate_total 42).2.1 (by decide)

/- ------------------------------------------------------------------ -/
/- Tag classification and dispatch (tag.cpp GetTagType, index.js)      -/
/- ------------------------------------------------------------------ -/

/-- Native libfreefare tag type enumeration (external freefare.h), under the
compatibility names used by src/common.h. -/
inductive mifare_tag_type
  | FELICA
  | CLASSIC_1K
  | CLASSIC_4K
  | DESFIRE
  | ULTRALIGHT
  | ULTRALIGHT_C
  | NTAG_21x
  deriving DecidableEq, Repr

/-- Embedding of Tag::GetTagType of tag.cpp: `typeStr` starts as "Unknown" and
the switch overwrites it only for the five cases it lists. -/
def GetTagType (t : mifare_tag_type) : String :=
  match t with
  | .CLASSIC_1K => "MIFARE_CLASSIC_1K"
  | .CLASSIC_4K => "MIFARE_CLASSIC_4K"
  | .DESFIRE => "MIFARE_DESFIRE"
  | .ULTRALIGHT => "MIFARE_ULTRALIGHT"
  | .ULTRALIGHT_C => "MIFARE_ULTRALIGHT_C"
  | _ => "Unknown"

/-- The JavaScript wrapper classes of index.js that Device.listTags can
instantiate; `Tag` is the generic base class. -/
inductive JsHandlerClass
  | MifareClassicTag
  | MifareDesfireTag
  | MifareUltralightTag
  | NTag21xTag
  | Tag
  deriving DecidableEq, Repr

/-- Embedding of the switch on `cppTag.getTagType()` in Device.listTags of
index.js; the cases for the empty string and "MIFARE_ULTRALIGHT_C" share the
default arm, which builds the generic Tag wrapper. -/
def listTagsDispatch (tagType : String) : JsHandlerClass :=
  if tagType = "MIFARE_CLASSIC_1K" ∨ tagType = "MIFARE_CLASSIC_4K" then .MifareClassicTag
  else if tagType = "MIFARE_DESFIRE" then .MifareDesfireTag
  else if tagType = "MIFARE_ULTRALIGHT" then .MifareUltralightTag
  else if tagType = "NTAG_21x" then .NTag21xTag
  else .Tag

/-- Embedding of Device.listTags of index.js composed with ListTagsWorker of
device.cpp: the worker always reports a null error, and the loop wraps every
enumerated tag, so the result is always the full mapped list. -/
def listTags (tags : List mifare_tag_type) : Except String (List JsHandlerClass) :=
  Except.ok (tags.map fun t => listTagsDispatch (GetTagType t))

/-- The type strings that Device.listTags binds to a non-generic wrapper. -/
def recognizedDispatchTypes : List String :=
  ["MIFARE_CLASSIC_1K", "MIFARE_CLASSIC_4K", "MIFARE_DESFIRE",
   "MIFARE_ULTRALIGHT", "NTAG_21x"]

/-- The prototype methods of the generic Tag class of index.js. -/
def tagBaseMethods : List String := ["getType", "getFriendlyName", "getUID"]

/-- The caller-facing methods of each index.js wrapper class (base-class
methods are inherited, then each subclass adds its own). -/
def handlerMethods : JsHandlerClass → List String
  | .Tag => tagBaseMethods
  | .MifareUltralightTag => tagBaseMethods ++ ["open", "close", "read", "write"]
  | .MifareClassicTag =>
      tagBaseMethods ++ ["open", "close", "authenticate", "read", "write", "initValue",
        "readValue", "incrementValue", "decrementValue", "restoreValue", "transferValue"]
  | .MifareDesfireTag =>
      tagBaseMethods ++ ["open", "close", "authenticateDES", "authenticate3DES",
        "getApplicationIds", "selectApplication", "getFileIds", "read", "write"]
  | .NTag21xTag =>
      tagBaseMethods ++ ["open", "close", "read", "fastRead", "write", "getSubType"]

/-- Claim C3: for a native tag of the extended-memory family (NTAG_21x),
Tag::GetTagType reports "Unknown" — its switch has no NTAG_21x case — so
Device.listTags binds the generic Tag wrapper and never the NTag21xTag
extended paged handler, although index.js carries a dead NTAG_21x dispatch
case and a full NTag21x handler implementation. -/
theorem ntag_dispatches_to_generic :
    GetTagType mifare_tag_type.NTAG_21x = "Unknown" ∧
    listTagsDispatch (GetTagType mifare_tag_type.NTAG_21x) = JsHandlerClass.Tag ∧
    listTagsDispatch (GetTagType mifare_tag_type.NTAG_21x) ≠ JsHandlerClass.NTag21xTag := by
  refine ⟨rfl, by decide, by decide⟩

/-- Claim C4: every type string outside the recognized dispatch set (the
unrecognized or empty family tags) is wrapped in the generic Tag class, which
exposes only getType, getFriendlyName and getUID; and enumeration as a whole
never fails: listTags always returns an ok list with one wrapper per tag. -/
theorem unknown_family_generic (s : String) (hs : s ∉ recognizedDispatchTypes)
    (tags : List mifare_tag_type) :
    listTagsDispatch s = JsHandlerClass.Tag ∧
    handlerMethods (listTagsDispatch s) = ["getType", "getFriendlyName", "getUID"] ∧
    listTags tags = Except.ok (tags.map fun t => listTagsDispatch (GetTagType t)) ∧
    (tags.map fun t => listTagsDispatch (GetTagType t)).length = tags.length := by
  simp only [recognizedDispatchTypes, List.mem_cons, List.not_mem_nil, or_false] at hs
  push_neg at hs
  obtain ⟨n1, n2, n3, n4, n5⟩ := hs
  have hd : listTagsDispatch s = JsHandlerClass.Tag := by
    unfold listTagsDispatch
    rw [if_neg (by exact fun h => h.elim n1 n2), if_neg n3, if_neg n4, if_neg n5]
  exact ⟨hd, by rw [hd]; rfl, rfl, by simp⟩

/-- Witness for C4 at the unrecognized type string of an Ultralight-C card
and a two-card enumeration. -/
theorem unknown_family_generic_witness :
    listTagsDispatch "MIFARE_ULTRALIGHT_C" = JsHandlerClass.Tag ∧
    handlerMethods (listTagsDispatch "MIFARE_ULTRALIGHT_C") =
      ["getType", "getFriendlyName", "getUID"] ∧
    listTags [mifare_tag_type.ULTRALIGHT_C, mifare_tag_type.NTAG_21x] =
      Except.ok (([mifare_tag_type.ULTRALIGHT_C, mifare_tag_type.NTAG_21x].map
        fun t => listTagsDispatch (GetTagType t))) ∧
    (([mifare_tag_type.ULTRALIGHT_C, mifare_tag_type.NTAG_21x].map
        fun t => listTagsDispatch (GetTagType t))).length =
      [mifare_tag_type.ULTRALIGHT_C, mifare_tag_type.NTAG_21x].length :=
  unknown_family_generic "MIFARE_ULTRALIGHT_C" (by decide)
    [mifare_tag_type.ULTRALIGHT_C, mifare_tag_type.NTAG_21x]

/- ------------------------------------------------------------------ -/
/- NTAG21x workers (tag_ntag21x.cpp)                                   -/
/- ------------------------------------------------------------------ -/

/-- One four-byte page of tag memory, with the memory modelled as a byte
function on absolute addresses. -/
def pageBytes (mem : Nat → Nat) (page : Nat) : List Nat :=
  [mem (4 * page), mem (4 * page + 1), mem (4 * page + 2), mem (4 * page + 3)]

/-- Single-page read primitive of the external Card Protocol Library
(libfreefare ntag21x_read4), modelled as a pure read of the 4 bytes of the
requested page, with a 0 error code on success. -/
def ntag21x_read4_native (mem : Nat → Nat) (page : Nat) : Int × List Nat :=
  (0, pageBytes mem page)

/-- Contiguous multi-page read primitive of the external Card Protocol
Library (libfreefare ntag21x_fast_read), modelled as the concatenation of the
pages from start_page to end_page inclusive. -/
def ntag21x_fast_read_native (mem : Nat → Nat) (start_page end_page : Nat) :
    Int × List Nat :=
  (0, (List.range (end_page - start_page + 1)).flatMap fun i => pageBytes mem (start_page + i))

/-- Embedding of ntag21x_readWorker::Execute of tag_ntag21x.cpp. -/
def ntag21x_readWorker_Execute (mem : Nat → Nat) (page : Nat) : Int × List Nat :=
  ntag21x_read4_native mem page

/-- Embedding of ntag21x_fastReadWorker::Execute of tag_ntag21x.cpp: an
inverted range is first normalized by setting end_page to start_page, then
`length = (end_page - start_page + 1) * 4` bytes are read in one native
fast-read call and delivered to the callback. -/
def ntag21x_fastReadWorker_Execute (mem : Nat → Nat) (start_page end_page : Nat) :
    Int × List Nat :=
  let norm_end := if start_page > end_page then start_page else end_page
  ntag21x_fast_read_native mem start_page norm_end

/-- Native libfreefare NTAG21x subtype enumeration (external freefare.h). -/
inductive ntag_tag_subtype
  | NTAG_UNKNOWN
  | NTAG_213
  | NTAG_215
  | NTAG_216
  deriving DecidableEq, Repr

/-- Embedding of ntag21x_getSubTypeWorker::Execute of tag_ntag21x.cpp: the
error field is initialized to 0 and never assigned, and the switch maps the
three known subtypes to 213, 215, 216, anything else to 0. -/
def ntag21x_getSubTypeWorker_Execute (st : ntag_tag_subtype) : Int × Int :=
  (0, match st with
      | .NTAG_213 => 213
      | .NTAG_215 => 215
      | .NTAG_216 => 216
      | _ => 0)

/-- The range-bind of pages yields 4 bytes per page. -/
theorem range_bind_pageBytes_length (mem : Nat → Nat) (s n : Nat) :
    ((List.range n).flatMap fun i => pageBytes mem (s + i)).length = 4 * n := by
  induction n with
  | zero => rfl
  | succ k ih =>
      rw [List.range_succ, List.flatMap_append, List.length_append, ih]
      simp [pageBytes, Nat.mul_succ]

/-- Claim C5: for an inverted page range (startPage > endPage), the fast-read
worker behaves identically to the single-page read worker at startPage: it
succeeds with error 0 and returns exactly the 4 bytes of page startPage. -/
theorem fastRead_inverted_eq_read (mem : Nat → Nat) (s e : Nat) (h : s > e) :
    ntag21x_fastReadWorker_Execute mem s e = ntag21x_readWorker_Execute mem s := by
  unfold ntag21x_fastReadWorker_Execute ntag21x_readWorker_Execute
  simp only [if_pos h]
  unfold ntag21x_fast_read_native ntag21x_read4_native
  simp [List.range_succ]

/-- Witness for C5 at the inverted range fastRead(5, 3) on a concrete
memory. -/
theorem fastRead_inverted_eq_read_witness :
    ntag21x_fastReadWorker_Execute (fun n => n % 251) 5 3 =
      ntag21x_readWorker_Execute (fun n => n % 251) 5 :=
  fastRead_inverted_eq_read (fun n => n % 251) 5 3 (by decide)

/-- Claim C9: the buffer delivered by the fast-read worker has length exactly
4 * (max startPage endPage - startPage + 1) bytes: 4 * (endPage - startPage
+ 1) for an ordered range and 4 for an inverted one. -/
theorem fastRead_buffer_length (mem : Nat → Nat) (s e : Nat) :
    (ntag21x_fastReadWorker_Execute mem s e).2.length = 4 * (max s e - s + 1) := by
  unfold ntag21x_fastReadWorker_Execute ntag21x_fast_read_native
  by_cases h : s > e
  · rw [if_pos h, range_bind_pageBytes_length, Nat.max_eq_left (Nat.le_of_lt h)]
  · rw [if_neg h, range_bind_pageBytes_length,
      Nat.max_eq_right (Nat.le_of_not_lt h)]

/-- Witness for C9 at the concrete ordered range fastRead(2, 5). -/
theorem fastRead_buffer_length_witness :
    (ntag21x_fastReadWorker_Execute (fun n => n % 7) 2 5).2.length =
      4 * (max 2 5 - 2 + 1) :=
  fastRead_buffer_length (fun n => n % 7) 2 5

/-- Claim C10: the get-subtype worker always completes with error code 0 and
a subtype in the set 213, 215, 216, 0, where 0 is reported exactly when the
native subtype is none of NTAG_213, NTAG_215, NTAG_216. -/
theorem getSubType_spec (st : ntag_tag_subtype) :
    (ntag21x_getSubTypeWorker_Execute st).1 = 0 ∧
    (ntag21x_getSubTypeWorker_Execute st).2 ∈ ([213, 215, 216, 0] : List Int) ∧
    ((ntag21x_getSubTypeWorker_Execute st).2 = 0 ↔
      st ∉ [ntag_tag_subtype.NTAG_213, ntag_tag_subtype.NTAG_215,
            ntag_tag_subtype.NTAG_216]) := by
  cases st <;> decide

/-- Witness for C10 at the concrete native subtype NTAG_215. -/
theorem getSubType_spec_witness :
    (ntag21x_getSubTypeWorker_Execute ntag_tag_subtype.NTAG_215).1 = 0 ∧
    (ntag21x_getSubTypeWorker_Execute ntag_tag_subtype.NTAG_215).2 ∈
      ([213, 215, 216, 0] : List Int) ∧
    ((ntag21x_getSubTypeWorker_Execute ntag_tag_subtype.NTAG_215).2 = 0 ↔
      ntag_tag_subtype.NTAG_215 ∉ [ntag_tag_subtype.NTAG_213, ntag_tag_subtype.NTAG_215,
            ntag_tag_subtype.NTAG_216]) :=
  getSubType_spec ntag_tag_subtype.NTAG_215

/- ------------------------------------------------------------------ -/
/- The caller-facing JavaScript boundary (index.js)                    -/
/- ------------------------------------------------------------------ -/

/-- A JavaScript error value that the boundary can surface. -/
inductive JsError
  | assertionError (msg : String)
  | typeError (msg : String)
  | errorMsg (msg : String)
  | unknownError (code : Int)
  deriving DecidableEq, Repr

/-- What a caller observes from one operation at the index.js boundary: a
raw synchronous exception, or a settled promise (resolved or rejected). -/
inductive JsOutcome (α : Type)
  | thrown (e : JsError)
  | resolved (v : α)
  | rejected (e : JsError)
  deriving DecidableEq, Repr

/-- A settlement attempt inside a promise executor. -/
inductive JsSettle (α : Type)
  | resolveWith (v : α)
  | rejectWith (e : JsError)
  deriving DecidableEq, Repr

/-- Promise semantics: of all settlement attempts made by the executor, the
first one wins and is the single delivered completion. -/
def promiseOutcome {α : Type} (attempts : List (JsSettle α)) : Option (JsOutcome α) :=
  (attempts.head?).map fun s =>
    match s with
    | .resolveWith v => JsOutcome.resolved v
    | .rejectWith e => JsOutcome.rejected e

/-- The settlement attempts of the callback body used by every index.js
operation: on a non-zero error it first rejects with the Unknown-error
wrapper (the switch has only a default arm), and — the reject not being
followed by a return — the trailing resolve is attempted as well. -/
def callbackSettleAttempts {α : Type} (error : Int) (result : α) : List (JsSettle α) :=
  (if error ≠ 0 then [JsSettle.rejectWith (JsError.unknownError error)] else [])
    ++ [JsSettle.resolveWith result]

/-- The completion the caller gets from the standard callback pattern. -/
def promiseFromCallback {α : Type} (error : Int) (result : α) : JsOutcome α :=
  match promiseOutcome (callbackSettleAttempts error result) with
  | some o => o
  | none => JsOutcome.thrown (JsError.typeError "promise never settled")

/-- An outcome is a completion when it is a settled promise, not a raw
synchronous exception. -/
def isCompletionOutcome {α : Type} : JsOutcome α → Prop
  | .thrown _ => False
  | .resolved _ => True
  | .rejected _ => True

instance {α : Type} (o : JsOutcome α) : Decidable (isCompletionOutcome o) := by
  cases o <;> simp [isCompletionOutcome] <;> infer_instance

/-- A native driver call observable at the Card Protocol Library boundary. -/
inductive NativeCall
  | ultralightRead (page : Nat)
  | ultralightWrite (page : Nat) (buf : List Nat)
  deriving DecidableEq, Repr

/-- The assertion message of the page-bound checks in
MifareUltralightTag.read and MifareUltralightTag.write of index.js. -/
def ultralightPageMsg : String :=
  "Mifare Ultralight tag have only 16 pages (0 to 15)"

/-- The assertion message of the buffer-length check in
MifareUltralightTag.write of index.js. -/
def ultralightBufMsg : String :=
  "Length of page on Mifare Ultralight tag is 4 bytes"

/-- Embedding of MifareUltralightTag.read of index.js: `assert(page < 16)`
throws synchronously before the promise is created, otherwise the native
single-page read is submitted (its result modelled as the page bytes and a
driver error code) and completes through the standard callback pattern. The
second component records the native driver calls made. -/
def mifareUltralight_read_js (mem : Nat → Nat) (nativeError : Int) (page : Nat) :
    JsOutcome (List Nat) × List NativeCall :=
  if page < 16 then
    (promiseFromCallback nativeError (pageBytes mem page), [NativeCall.ultralightRead page])
  else
    (JsOutcome.thrown (JsError.assertionError ultralightPageMsg), [])

/-- Embedding of MifareUltralightTag.write of index.js: `assert(page < 16)`
then `assert(buf.length == 4)` throw synchronously before the promise is
created; otherwise the native write is submitted and completes through the
standard callback pattern. -/
def mifareUltralight_write_js (nativeError : Int) (page : Nat) (buf : List Nat) :
    JsOutcome Unit × List NativeCall :=
  if page < 16 then
    if buf.length = 4 then
      (promiseFromCallback nativeError (), [NativeCall.ultralightWrite page buf])
    else
      (JsOutcome.thrown (JsError.assertionError ultralightBufMsg), [])
  else
    (JsOutcome.thrown (JsError.assertionError ultralightPageMsg), [])

/-- Embedding of the Freefare constructor of index.js: it throws a raw Error
when freefare.init reports 10 (ERROR_INIT_LIBNFC) or any other non-zero
code, and returns normally on 0. -/
def Freefare_constructor_js (error : Int) : JsOutcome Unit :=
  if error = NFF_ERROR_INIT_LIBNFC then
    JsOutcome.thrown (JsError.errorMsg "Could not initiate LibNFC")
  else if error ≠ 0 then
    JsOutcome.thrown (JsError.errorMsg "Unknown error during LibNFC initialization")
  else
    JsOutcome.resolved ()

/-- Counterexample to Claim C6 at the concrete input page = 16: the simple
paged handler's read throws a raw synchronous AssertionError across the
caller-facing boundary, so its outcome is not an asynchronous completion at
all. -/
theorem read_out_of_range_throws :
    (mifareUltralight_read_js (fun _ => 0) 0 16).1 =
      JsOutcome.thrown (JsError.assertionError ultralightPageMsg) ∧
    ¬ isCompletionOutcome (mifareUltralight_read_js (fun _ => 0) 0 16).1 := by
  exact ⟨rfl, by decide⟩

/-- The standard callback pattern settles exactly as the error code says:
reject on non-zero, resolve on zero. -/
theorem promiseFromCallback_eq {α : Type} (error : Int) (result : α) :
    promiseFromCallback error result =
      if error = 0 then JsOutcome.resolved result
      else JsOutcome.rejected (JsError.unknownError error) := by
  unfold promiseFromCallback callbackSettleAttempts promiseOutcome
  by_cases he : error = 0 <;> simp [he]

/-- The standard callback pattern always yields a completion, never a raw
exception. -/
theorem promiseFromCallback_isCompletion {α : Type} (error : Int) (result : α) :
    isCompletionOutcome (promiseFromCallback error result) := by
  rw [promiseFromCallback_eq]
  by_cases he : error = 0 <;> simp [he, isCompletionOutcome]

/-- Claim C6 as amended: every operation completing through the standard
callback pattern delivers exactly one completion — the first settlement wins,
a non-zero driver error rejecting with the translated Unknown-error wrapper
and a zero error resolving with the result — and the simple paged handler's
read follows that pattern for every in-range page; but an out-of-range page
makes read throw a raw synchronous AssertionError instead of completing, and
the Freefare constructor likewise throws on a driver init failure. -/
theorem single_completion_amended (error : Int) (result : List Nat)
    (mem : Nat → Nat) (page : Nat) :
    (error ≠ 0 →
      promiseFromCallback error result = JsOutcome.rejected (JsError.unknownError error)) ∧
    (error = 0 → promiseFromCallback error result = JsOutcome.resolved result) ∧
    (promiseOutcome (callbackSettleAttempts error result) =
      some (promiseFromCallback error result)) ∧
    isCompletionOutcome (promiseFromCallback error result) ∧
    (page < 16 →
      (mifareUltralight_read_js mem error page).1 =
        promiseFromCallback error (pageBytes mem page) ∧
      isCompletionOutcome (mifareUltralight_read_js mem error page).1) ∧
    (16 ≤ page →
      (mifareUltralight_read_js mem error page).1 =
        JsOutcome.thrown (JsError.assertionError ultralightPageMsg)) ∧
    (Freefare_constructor_js NFF_ERROR_INIT_LIBNFC =
      JsOutcome.thrown (JsError.errorMsg "Could not initiate LibNFC")) := by
  refine ⟨fun he => ?_, fun he => ?_, ?_, promiseFromCallback_isCompletion error result,
    fun hp => ?_, fun hp => ?_, rfl⟩
  · rw [promiseFromCallback_eq, if_neg he]
  · rw [promiseFromCallback_eq, if_pos he]
  · unfold promiseFromCallback callbackSettleAttempts promiseOutcome
    by_cases he : error = 0 <;> simp [he]
  · unfold mifareUltralight_read_js
    rw [if_pos hp]
    exact ⟨rfl, promiseFromCallback_isCompletion error (pageBytes mem page)⟩
  · unfold mifareUltralight_read_js
    rw [if_neg (by omega)]

/-- Witness for the amended C6 at the concrete failing driver error 5 on an
in-range page. -/
theorem single_completion_amended_witness :
    promiseFromCallback 5 ([1, 2, 3, 4] : List Nat) =
      JsOutcome.rejected (JsError.unknownError 5) :=
  (single_completion_amended 5 [1, 2, 3, 4] (fun _ => 0) 3).1 (by decide)

/-- Counterexample to Claim C8 at the concrete input page = 16: the simple
paged handler's write throws a raw synchronous AssertionError, so the
out-of-range failure is not delivered as an error completion at all — in
particular not as the InvalidArgument taxonomy error — although indeed no
native driver call is made. -/
theorem write_out_of_range_cex :
    (mifareUltralight_write_js 0 16 [1, 2, 3, 4]).1 =
      JsOutcome.thrown (JsError.assertionError ultralightPageMsg) ∧
    ¬ isCompletionOutcome (mifareUltralight_write_js 0 16 [1, 2, 3, 4]).1 ∧
    (mifareUltralight_write_js 0 16 [1, 2, 3, 4]).1 ≠
      JsOutcome.rejected (JsError.unknownError NFF_ERROR_LIBNFC_EINVARG) ∧
    (mifareUltralight_write_js 0 16 [1, 2, 3, 4]).2 = [] := by
  refine ⟨rfl, by decide, by decide, rfl⟩

/-- Claim C8 as amended: for every out-of-range page index (page ≥ 16), the
simple paged handler's read and write fail fast before submission by
throwing a synchronous assertion error — not by completing with the
translated InvalidArgument taxonomy error — and no native driver call is
made for that operation. -/
theorem out_of_range_fail_fast (mem : Nat → Nat) (error : Int) (page : Nat)
    (buf : List Nat) (h : 16 ≤ page) :
    (mifareUltralight_read_js mem error page).1 =
      JsOutcome.thrown (JsError.assertionError ultralightPageMsg) ∧
    (mifareUltralight_read_js mem error page).2 = [] ∧
    (mifareUltralight_write_js error page buf).1 =
      JsOutcome.thrown (JsError.assertionError ultralightPageMsg) ∧
    (mifareUltralight_write_js error page buf).2 = [] := by
  have hnp : ¬ page < 16 := by omega
  unfold mifareUltralight_read_js mifareUltralight_write_js
  simp only [if_neg hnp]
  exact ⟨trivial, trivial, trivial, trivial⟩

/-- Witness for the amended C8 at the concrete out-of-range page 20. -/
theorem out_of_range_fail_fast_witness :
    (mifareUltralight_read_js (fun _ => 0) 0 20).1 =
      JsOutcome.thrown (JsError.assertionError ultralightPageMsg) ∧
    (mifareUltralight_read_js (fun _ => 0) 0 20).2 = [] ∧
    (mifareUltralight_write_js 0 20 [9, 9, 9, 9]).1 =
      JsOutcome.thrown (JsError.assertionError ultralightPageMsg) ∧
    (mifareUltralight_write_js 0 20 [9, 9, 9, 9]).2 = [] :=
  out_of_range_fail_fast (fun _ => 0) 0 20 [9, 9, 9, 9] (by decide)

/- ------------------------------------------------------------------ -/
/- Device lifecycle (device.cpp, index.js)                             -/
/- ------------------------------------------------------------------ -/

/-- The prototype methods that Device::Init of device.cpp registers on the
native Device object. -/
def Device_Init_prototypeMethods : List String :=
  ["open", "listTags", "getConnstring", "abort"]

/-- Embedding of Device.close of index.js: the promise executor invokes
this[cppObj].close, which exists only if Device::Init registered a "close"
prototype method; a missing method makes the executor throw a TypeError,
which promise semantics turn into a rejection. When the method exists, the
CloseWorker of device.cpp always reports a null error, so the standard
callback pattern resolves. -/
def Device_close_js : JsOutcome Unit :=
  if "close" ∈ Device_Init_prototypeMethods then
    promiseFromCallback 0 ()
  else
    JsOutcome.rejected (JsError.typeError "this.close is not a function")

/-- Claim C7: Device::Init never registers the native close method, so every
call of Device.close — first or repeated — rejects with a TypeError instead
of succeeding; close is not the idempotent success the claim states. -/
theorem close_never_registered :
    ¬ ("close" ∈ Device_Init_prototypeMethods) ∧
    Device_close_js = JsOutcome.rejected (JsError.typeError "this.close is not a function") ∧
    Device_close_js ≠ JsOutcome.resolved () := by
  refine ⟨by decide, ?_, ?_⟩
  · unfold Device_close_js
    rw [if_neg (by decide)]
  · unfold Device_close_js
    rw [if_neg (by decide)]
    decide

end NodeFreefare
